import Mathlib

/-!
Verification of the chat-response orchestration of the `test10oct2025`
service (src/test10oct2025/api.py, config.py, logging_qa.py, metrics.py).

The handler code is shallowly embedded: every external collaborator
(translator, guardrail classifier, knowledge-graph engine, query preparer,
response composer) is a function supplied in an `Env` record, the
persistence gateway is modelled as explicit state passing over lists of
rows, and observable side effects (QA calls, back-translation calls,
metric gauge writes, low-quality log records) are collected in a `Trace`.
-/

/-- Result of `translator.translate(text, target)`: a dict holding the
detected source language and the translated text.  `translated_text` is
optional because the handler reads it with `dict.get` and a default. -/
structure Translation where
  source_lang : String
  translated_text : String
  deriving Repr, DecidableEq

/-- Result of `guardrail.guardrails(query)`: relevance flag and message. -/
structure GuardrailResult where
  relevant : Bool
  message : String
  deriving Repr, DecidableEq

/-- A reference of a composed chat response (schemas side): identifier and
type tag, as consumed by `insert_response_reference`. -/
structure Reference where
  id : String
  type : String
  deriving Repr, DecidableEq

/-- The `schemas.ChatResponse` object returned by the handler. -/
structure ChatResponse where
  id : String
  createdAt : Nat
  input : String
  output : String
  references : List Reference
  deriving Repr, DecidableEq

/-- One element of the conversation history sent to the QA engine. -/
structure HistoryEntry where
  role : String
  content : String
  deriving Repr, DecidableEq

/-- Scores returned by the RAGAS evaluation step; `similarity` is read
with `dict.get` and may be absent. -/
structure RagasScores where
  faithfulness : ℚ
  answer_relevance : ℚ
  context_precision : ℚ
  similarity : Option ℚ
  deriving Repr, DecidableEq

/-- `FAITHFULNESS_THRESHOLD` from config.py. -/
def FAITHFULNESS_THRESHOLD : ℚ := 0.8

/-- `RELEVANCE_THRESHOLD` from config.py. -/
def RELEVANCE_THRESHOLD : ℚ := 0.8

/-- Modelled from the spec: a persisted Response row of the Persistence
Gateway (`DbFeedbackInterface`, not under src/): identifier, parent chat,
raw user input, prepared query, output text, opaque original engine
payload, nullable rating, creation timestamp. -/
structure DbResponse where
  id : String
  chat_id : String
  user_input : String
  query : String
  output : String
  original_response : String
  rating : Option Int
  createdAt : Nat
  deriving Repr, DecidableEq

/-- Modelled from the spec: a persisted Reference row — identifier, type
tag, ordinal position, owning response identifier. -/
structure DbReferenceRow where
  reference_id : String
  reference_type : String
  idx : Nat
  response_id : String
  deriving Repr, DecidableEq

/-- Modelled from the spec: a persisted Chat row — identifier and owning
user identifier. -/
structure DbChat where
  id : String
  meta_user_id : String
  deriving Repr, DecidableEq

/-- Modelled from the spec: the Persistence Gateway's store.  Row lists
are kept in insertion (chronological) order. -/
structure DbState where
  chats : List DbChat
  responses : List DbResponse
  refRows : List DbReferenceRow
  deriving Repr, DecidableEq

/-- The error taxonomy of the handler (spec section 7). -/
inductive ApiError where
  | notFound
  | accessDenied
  | rateLimited
  | upstreamFailure
  | scoringFailure
  deriving Repr, DecidableEq

/-- Modelled from the spec: `validation.validate_chat_existence_access`
(not under src/) — `NotFound` if the chat row is absent, `AccessDenied`
if it exists but is owned by a different user, success otherwise. -/
def validate_chat_existence_access (st : DbState) (chatId metaUserId : String) :
    Option ApiError :=
  match st.chats.find? (fun c => c.id = chatId) with
  | none => some .notFound
  | some c => if c.meta_user_id = metaUserId then none else some .accessDenied

/-- Modelled from the spec: `DbFeedbackInterface.get_responses_by_chat_id`
— the chat's responses ordered by creation time (descending when
`descOrder`), with offset and limit applied. -/
def get_responses_by_chat_id (st : DbState) (chatId : String)
    (limit offset : Nat) (descOrder : Bool) : List DbResponse :=
  let rows := st.responses.filter (fun r => r.chat_id = chatId)
  let ordered := if descOrder then rows.reverse else rows
  (ordered.drop offset).take limit

/-- Modelled from the spec: the DB-assigned identifier of the next
inserted Response row (unique fresh key, rendered from the row count). -/
def freshResponseId (st : DbState) : String :=
  "dbrow-" ++ toString st.responses.length

/-- Modelled from the spec: `DbFeedbackInterface.insert_response` —
appends a Response row with a DB-assigned id and timestamp and returns
the new state together with the inserted row. -/
def insert_response (st : DbState) (chat_id user_input query output
    original_response : String) (rating : Option Int) :
    DbState × DbResponse :=
  let row : DbResponse :=
    { id := freshResponseId st, chat_id := chat_id, user_input := user_input,
      query := query, output := output, original_response := original_response,
      rating := rating, createdAt := st.responses.length }
  ({ st with responses := st.responses ++ [row] }, row)

/-- Modelled from the spec: `DbFeedbackInterface.insert_response_reference`
— appends one Reference row. -/
def insert_response_reference (st : DbState) (reference_id reference_type :
    String) (idx : Nat) (response_id : String) : DbState :=
  { st with refRows := st.refRows ++
      [{ reference_id := reference_id, reference_type := reference_type,
         idx := idx, response_id := response_id }] }

/-- The reference-insertion loop of the handler (api.py lines 281-287):
`for idx, reference in enumerate(chat_response.references)` inserting each
row in list order with its zero-based position. -/
def insert_references_loop (st : DbState) (refs : List Reference)
    (response_id : String) : DbState :=
  refs.enum.foldl
    (fun acc p =>
      insert_response_reference acc p.2.id p.2.type p.1 response_id) st

/-- Modelled from the spec: `DbFeedbackInterface.get_response_by_id` —
looks a Response row up by its identifier alone, over all chats. -/
def get_response_by_id (st : DbState) (responseId : String) :
    Option DbResponse :=
  st.responses.find? (fun r => r.id = responseId)

/-- The row update applied by `update_response_rating`: set only the
`rating` column of every row whose id matches. -/
def set_rating_rows (l : List DbResponse) (responseId : String)
    (rating : Option Int) : List DbResponse :=
  l.map (fun r => if r.id = responseId then { r with rating := rating } else r)

/-- Modelled from the spec: `DbFeedbackInterface.update_response_rating` —
sets only the `rating` column of the row with the given id, returning the
new state and updated row, or `none` when the row is absent. -/
def update_response_rating (st : DbState) (responseId : String)
    (rating : Option Int) : Option (DbState × DbResponse) :=
  match st.responses.find? (fun r => r.id = responseId) with
  | none => none
  | some row =>
    let row' := { row with rating := rating }
    some ({ st with responses := set_rating_rows st.responses responseId rating }, row')

/-- The external collaborators of `create_chat_response`, supplied as
oracles: translator, guardrail, query preparer, knowledge-graph engine,
response composer, citation reformatter, RAGAS scorer, plus the
configuration values the handler reads.  `none` results model a raised
exception / failed HTTP call. -/
structure Env where
  translate_to_en : String → Translation
  translate_back : String → String → Option String
  guardrail_enabled : Bool
  guardrails : String → GuardrailResult
  request_prepare : String → String
  kg_response : String → List HistoryEntry → Option String
  response_prepare : String → String → String → ChatResponse
  format_references : String → String
  ragas : String → String → Option RagasScores
  max_conversation_turns : Nat
  rate_limit_ok : Bool
  now : Nat

/-- Gauge writes performed during one turn (`none` = gauge not set). -/
structure GaugeState where
  faithfulness : Option ℚ
  answer_relevance : Option ℚ
  context_precision : Option ℚ
  similarity : Option ℚ
  deriving Repr, DecidableEq

/-- A structured low-quality log record as built by
`log_low_quality_response` (question, answer, scores). -/
structure LowQualityLog where
  question : String
  answer : String
  faithfulness : ℚ
  answer_relevance : ℚ
  deriving Repr, DecidableEq

/-- The observable side effects of one turn: QA-engine calls (prepared
query and conversation history), back-translation calls (text and target
language), gauge writes, low-quality log records. -/
structure Trace where
  qa_calls : List (String × List HistoryEntry)
  translate_back_calls : List (String × String)
  gauges : GaugeState
  low_quality_logs : List LowQualityLog
  deriving Repr, DecidableEq

/-- The empty trace (no effects performed). -/
def Trace.empty : Trace :=
  { qa_calls := [], translate_back_calls := [],
    gauges := { faithfulness := none, answer_relevance := none,
                context_precision := none, similarity := none },
    low_quality_logs := [] }

/-- The outcome of a successful turn: the returned ChatResponse, the
final store, and the effect trace. -/
structure TurnResult where
  response : ChatResponse
  db : DbState
  trace : Trace
  deriving Repr, DecidableEq

/-- The sentinel id used by both short-circuit responses. -/
def zeroUuid : String := "00000000-0000-0000-0000-000000000000"

/-- The fixed unsupported-language message (api.py lines 197-200). -/
def unsupportedLanguageMessage : String :=
  "Language not supported. Supported languages are English, German and French"

/-- Query selection (api.py lines 188-191): English input is used as-is,
German/French input uses the translation to English. -/
def working_query (t : Translation) (content : String) : String :=
  if t.source_lang = "en" then content else t.translated_text

/-- The final answer text (api.py lines 259-267): back-translate the
composed output to the source language when it is not English (keeping
the current output when the translator returns no text), then apply
citation reformatting. -/
def final_output (env : Env) (composed : ChatResponse) (source_lang : String) :
    String :=
  env.format_references
    (if source_lang = "en" then composed.output
     else (env.translate_back composed.output source_lang).getD composed.output)

/-- Conversation-history construction (api.py lines 222-235): fetch up to
`max_conversation_turns` most recent responses of the chat (descending),
reverse to chronological order, and flatten each into a user entry (its
query) followed by an assistant entry (its output). -/
def conversation_history_of (st : DbState) (chatId : String) (n : Nat) :
    List HistoryEntry :=
  let old_responses := get_responses_by_chat_id st chatId n 0 true
  old_responses.reverse.flatMap
    (fun r => [{ role := "user", content := r.query },
               { role := "assistant", content := r.output }])

/-- The tail of the handler from the QA call onward (api.py lines
237-311): call the knowledge-graph engine, compose the response,
back-translate when the source language is not English, reformat
citations, persist the Response row and then each reference with its
ordinal, evaluate RAGAS scores (no exception handling around the call),
set the gauges, and emit a low-quality log when a score is below its
threshold. -/
def qa_path (env : Env) (st : DbState) (chatId content tempId query
    source_lang : String) : Except ApiError TurnResult :=
  let history := conversation_history_of st chatId env.max_conversation_turns
  match env.kg_response query history with
  | none => .error .upstreamFailure
  | some knowledge_graph_response =>
    let composed := env.response_prepare content knowledge_graph_response tempId
    let back_calls :=
      if source_lang = "en" then [] else [(composed.output, source_lang)]
    let out2 := final_output env composed source_lang
    let chat_response1 := { composed with output := out2 }
    let inserted := insert_response st chatId chat_response1.input query
      chat_response1.output knowledge_graph_response none
    let st1 := inserted.1
    let response_obj := inserted.2
    let chat_response2 := { chat_response1 with
      id := response_obj.id, createdAt := response_obj.createdAt }
    let st2 := insert_references_loop st1 chat_response2.references response_obj.id
    match env.ragas content chat_response2.output with
    | none => .error .scoringFailure
    | some scores =>
      let gauges : GaugeState :=
        { faithfulness := some scores.faithfulness,
          answer_relevance := some scores.answer_relevance,
          context_precision := some scores.context_precision,
          similarity := scores.similarity }
      let logs :=
        if scores.faithfulness < FAITHFULNESS_THRESHOLD ∨
            scores.answer_relevance < RELEVANCE_THRESHOLD then
          [{ question := content, answer := chat_response2.output,
             faithfulness := scores.faithfulness,
             answer_relevance := scores.answer_relevance }]
        else []
      .ok { response := chat_response2, db := st2,
            trace := { qa_calls := [(query, history)],
                       translate_back_calls := back_calls,
                       gauges := gauges, low_quality_logs := logs } }

/-- The create-response handler (api.py lines 146-311), after user upsert:
validate chat existence and access, rate-limit, detect-translate the
content to English, short-circuit on an unsupported source language,
optionally short-circuit on a guardrail rejection, prepare the query and
continue with `qa_path`. -/
def create_chat_response (env : Env) (st : DbState)
    (metaUserId chatId content tempId : String) : Except ApiError TurnResult :=
  match validate_chat_existence_access st chatId metaUserId with
  | some .notFound => .error .notFound
  | some e => .error e
  | none =>
    if ¬ env.rate_limit_ok then .error .rateLimited
    else
      let translation := env.translate_to_en content
      let source_lang := translation.source_lang
      if source_lang = "en" ∨ source_lang = "de" ∨ source_lang = "fr" then
        let query0 := working_query translation content
        if env.guardrail_enabled ∧ ¬ (env.guardrails query0).relevant then
          .ok { response :=
                  { id := zeroUuid, createdAt := env.now, input := content,
                    output := (env.guardrails query0).message, references := [] },
                db := st, trace := Trace.empty }
        else
          let query := env.request_prepare query0
          qa_path env st chatId content tempId query source_lang
      else
        .ok { response :=
                { id := zeroUuid, createdAt := env.now, input := content,
                  output := unsupportedLanguageMessage, references := [] },
              db := st, trace := Trace.empty }

/-- The rating value carried by `schemas.RatingObject`. -/
structure RatingObject where
  rating : Option Int
  deriving Repr, DecidableEq

/-- `get_rating` (api.py lines 319-351): validate chat existence and
access, look the response up by its id alone, 404 when absent, otherwise
return its (possibly null) rating. -/
def get_rating (st : DbState) (metaUserId chatId responseId : String) :
    Except ApiError RatingObject :=
  match validate_chat_existence_access st chatId metaUserId with
  | some e => .error e
  | none =>
    match get_response_by_id st responseId with
    | none => .error .notFound
    | some row => .ok { rating := row.rating }

/-- `create_rating` (api.py lines 359-394): validate chat existence and
access, update the rating of the response found by its id alone, 404 when
absent, otherwise return the stored rating and the new state. -/
def create_rating (st : DbState) (metaUserId chatId responseId : String)
    (value : Int) : Except ApiError (RatingObject × DbState) :=
  match validate_chat_existence_access st chatId metaUserId with
  | some e => .error e
  | none =>
    match update_response_rating st responseId (some value) with
    | none => .error .notFound
    | some (st1, row) => .ok ({ rating := row.rating }, st1)

/-- `update_rating` (api.py lines 402-437): identical body to
`create_rating`. -/
def update_rating (st : DbState) (metaUserId chatId responseId : String)
    (value : Int) : Except ApiError (RatingObject × DbState) :=
  match validate_chat_existence_access st chatId metaUserId with
  | some e => .error e
  | none =>
    match update_response_rating st responseId (some value) with
    | none => .error .notFound
    | some (st1, row) => .ok ({ rating := row.rating }, st1)

/-- `delete_rating` (api.py lines 441-471): validate chat existence and
access, clear the rating of the response found by its id alone, 404 when
absent. -/
def delete_rating (st : DbState) (metaUserId chatId responseId : String) :
    Except ApiError DbState :=
  match validate_chat_existence_access st chatId metaUserId with
  | some e => .error e
  | none =>
    match update_response_rating st responseId none with
    | none => .error .notFound
    | some (st1, _) => .ok st1

/-- The content of a Response row apart from its rating, used to state
that rating operations leave everything else untouched. -/
def respContent (r : DbResponse) :
    String × String × String × String × String × String × Nat :=
  (r.id, r.chat_id, r.user_input, r.query, r.output, r.original_response,
    r.createdAt)

/-- The Reference row built from an enumerated composed reference. -/
def refRowOf (rid : String) (p : Nat × Reference) : DbReferenceRow :=
  { reference_id := p.2.id, reference_type := p.2.type, idx := p.1,
    response_id := rid }

theorem insert_loop_enumFrom (rid : String) (refs : List Reference) :
    ∀ (st : DbState) (n : Nat),
      (List.enumFrom n refs).foldl
          (fun acc p =>
            insert_response_reference acc p.2.id p.2.type p.1 rid) st =
        { st with refRows := st.refRows ++ (List.enumFrom n refs).map (refRowOf rid) } := by
  induction refs with
  | nil => intro st n; simp
  | cons x xs ih =>
    intro st n
    simp only [List.enumFrom_cons, List.foldl_cons, List.map_cons]
    rw [ih]
    simp [insert_response_reference, refRowOf]

/-- The reference-insertion loop appends exactly one Reference row per
composed reference, in list order, with `idx` equal to the reference's
zero-based position. -/
theorem insert_references_loop_spec (st : DbState) (refs : List Reference)
    (rid : String) :
    insert_references_loop st refs rid =
      { st with refRows := st.refRows ++ refs.enum.map (refRowOf rid) } := by
  unfold insert_references_loop
  rw [List.enum_eq_enumFrom]
  exact insert_loop_enumFrom rid refs st 0

/-- The conversation history equals the flattening of the suffix of the
chat's chronologically ordered responses consisting of its (at most) `n`
most recent rows. -/
theorem conversation_history_eq_drop (st : DbState) (chatId : String)
    (n : Nat) :
    conversation_history_of st chatId n =
      ((st.responses.filter (fun r => r.chat_id = chatId)).drop
          ((st.responses.filter (fun r => r.chat_id = chatId)).length - n)).flatMap
        (fun r => [{ role := "user", content := r.query },
                   { role := "assistant", content := r.output }]) := by
  have h : ∀ (l : List DbResponse),
      (l.reverse.take n).reverse = l.drop (l.length - n) := by
    intro l
    rw [← List.rtake_eq_reverse_take_reverse]
    rfl
  simp only [conversation_history_of, get_responses_by_chat_id, if_true,
    List.drop_zero]
  rw [h]

theorem length_flatMap_pair (l : List DbResponse) :
    (l.flatMap
      (fun r => [HistoryEntry.mk "user" r.query,
                 HistoryEntry.mk "assistant" r.output])).length = 2 * l.length := by
  induction l with
  | nil => rfl
  | cons x xs ih =>
    rw [List.flatMap_cons, List.length_append, ih]
    simp only [List.length_cons, List.length_nil]
    omega

/-- The conversation history holds two entries per selected prior
response: its length is twice the minimum of the turn limit and the
number of prior responses of the chat. -/
theorem conversation_history_length (st : DbState) (chatId : String)
    (n : Nat) :
    (conversation_history_of st chatId n).length =
      2 * min n (st.responses.filter (fun r => r.chat_id = chatId)).length := by
  rw [conversation_history_eq_drop]
  rw [length_flatMap_pair, List.length_drop]
  omega

theorem mem_get_responses (st : DbState) (chatId : String)
    (limit offset : Nat) (b : Bool) (r : DbResponse)
    (h : r ∈ get_responses_by_chat_id st chatId limit offset b) :
    r ∈ st.responses := by
  unfold get_responses_by_chat_id at h
  have h1 := List.mem_of_mem_drop (List.mem_of_mem_take h)
  cases b <;> simp at h1 <;> exact h1.1

/-- Under passing validation, rate limiting, a supported source language
and a passing (or disabled) guardrail, the handler proceeds to the QA
path with the prepared working-language query. -/
theorem create_qa_dispatch (env : Env) (st : DbState)
    (metaUserId chatId content tempId : String)
    (hval : validate_chat_existence_access st chatId metaUserId = none)
    (hrate : env.rate_limit_ok = true)
    (hlang : (env.translate_to_en content).source_lang = "en" ∨
             (env.translate_to_en content).source_lang = "de" ∨
             (env.translate_to_en content).source_lang = "fr")
    (hguard : env.guardrail_enabled = false ∨
              (env.guardrails
                (working_query (env.translate_to_en content) content)).relevant = true) :
    create_chat_response env st metaUserId chatId content tempId =
      qa_path env st chatId content tempId
        (env.request_prepare (working_query (env.translate_to_en content) content))
        (env.translate_to_en content).source_lang := by
  unfold create_chat_response
  rw [hval]
  rw [if_neg (by simp [hrate])]
  rw [if_pos hlang]
  rw [if_neg (by rcases hguard with h | h <;> simp [h])]

/-- The row inserted for a successful turn, spelled out. -/
def expectedRow (env : Env) (st : DbState)
    (chatId content tempId query source_lang payload : String) : DbResponse :=
  { id := freshResponseId st, chat_id := chatId,
    user_input := (env.response_prepare content payload tempId).input,
    query := query,
    output := final_output env (env.response_prepare content payload tempId) source_lang,
    original_response := payload, rating := none,
    createdAt := st.responses.length }

/-- The complete outcome of a turn that reaches the QA path and whose
knowledge-graph call and scoring both succeed, spelled out. -/
def expectedResult (env : Env) (st : DbState)
    (chatId content tempId query source_lang payload : String)
    (scores : RagasScores) : TurnResult :=
  let composed := env.response_prepare content payload tempId
  let out := final_output env composed source_lang
  { response := { id := freshResponseId st, createdAt := st.responses.length,
                  input := composed.input, output := out,
                  references := composed.references },
    db := { chats := st.chats,
            responses := st.responses ++
              [expectedRow env st chatId content tempId query source_lang payload],
            refRows := st.refRows ++
              composed.references.enum.map (refRowOf (freshResponseId st)) },
    trace := { qa_calls :=
                 [(query, conversation_history_of st chatId env.max_conversation_turns)],
               translate_back_calls :=
                 if source_lang = "en" then [] else [(composed.output, source_lang)],
               gauges := { faithfulness := some scores.faithfulness,
                           answer_relevance := some scores.answer_relevance,
                           context_precision := some scores.context_precision,
                           similarity := scores.similarity },
               low_quality_logs :=
                 if scores.faithfulness < FAITHFULNESS_THRESHOLD ∨
                     scores.answer_relevance < RELEVANCE_THRESHOLD then
                   [{ question := content, answer := out,
                      faithfulness := scores.faithfulness,
                      answer_relevance := scores.answer_relevance }]
                 else [] } }

/-- When the knowledge-graph call returns a payload and RAGAS scoring
succeeds, the QA path produces exactly `expectedResult`. -/
theorem qa_path_eq (env : Env) (st : DbState)
    (chatId content tempId query source_lang payload : String)
    (scores : RagasScores)
    (hkg : env.kg_response query
        (conversation_history_of st chatId env.max_conversation_turns) = some payload)
    (hragas : env.ragas content
        (final_output env (env.response_prepare content payload tempId) source_lang)
        = some scores) :
    qa_path env st chatId content tempId query source_lang =
      .ok (expectedResult env st chatId content tempId query source_lang payload scores) := by
  simp only [qa_path, hkg, insert_response, insert_references_loop_spec, hragas]
  simp [expectedResult, expectedRow, freshResponseId]

theorem unsupported_language_eq (env : Env) (st : DbState)
    (metaUserId chatId content tempId : String)
    (hval : validate_chat_existence_access st chatId metaUserId = none)
    (hrate : env.rate_limit_ok = true)
    (hlang : ¬ ((env.translate_to_en content).source_lang = "en" ∨
                (env.translate_to_en content).source_lang = "de" ∨
                (env.translate_to_en content).source_lang = "fr")) :
    create_chat_response env st metaUserId chatId content tempId =
      .ok { response := { id := zeroUuid, createdAt := env.now, input := content,
                          output := unsupportedLanguageMessage, references := [] },
            db := st, trace := Trace.empty } := by
  unfold create_chat_response
  rw [hval]
  rw [if_neg (by simp [hrate])]
  rw [if_neg hlang]

theorem guardrail_rejection_eq (env : Env) (st : DbState)
    (metaUserId chatId content tempId : String)
    (hval : validate_chat_existence_access st chatId metaUserId = none)
    (hrate : env.rate_limit_ok = true)
    (hlang : (env.translate_to_en content).source_lang = "en" ∨
             (env.translate_to_en content).source_lang = "de" ∨
             (env.translate_to_en content).source_lang = "fr")
    (henabled : env.guardrail_enabled = true)
    (hrel : (env.guardrails
        (working_query (env.translate_to_en content) content)).relevant = false) :
    create_chat_response env st metaUserId chatId content tempId =
      .ok { response := { id := zeroUuid, createdAt := env.now, input := content,
                          output := (env.guardrails
                            (working_query (env.translate_to_en content) content)).message,
                          references := [] },
            db := st, trace := Trace.empty } := by
  unfold create_chat_response
  rw [hval]
  rw [if_neg (by simp [hrate])]
  rw [if_pos hlang]
  rw [if_pos (by simp [henabled, hrel])]

/-- C10: every short-circuit ChatResponse (unsupported language or
guardrail rejection) carries the fixed sentinel id, an empty references
list, and input equal to the raw user content; the store is unchanged, so
a later rating lookup of the sentinel id fails with NotFound and no later
response listing for the chat contains the sentinel id. -/
theorem c10_sentinel_short_circuit_not_observable (env : Env) (st : DbState)
    (metaUserId chatId content tempId : String)
    (hval : validate_chat_existence_access st chatId metaUserId = none)
    (hrate : env.rate_limit_ok = true)
    (hshort :
      (¬ ((env.translate_to_en content).source_lang = "en" ∨
          (env.translate_to_en content).source_lang = "de" ∨
          (env.translate_to_en content).source_lang = "fr")) ∨
      (((env.translate_to_en content).source_lang = "en" ∨
        (env.translate_to_en content).source_lang = "de" ∨
        (env.translate_to_en content).source_lang = "fr") ∧
        env.guardrail_enabled = true ∧
        (env.guardrails
          (working_query (env.translate_to_en content) content)).relevant = false))
    (hfresh : ∀ r ∈ st.responses, r.id ≠ zeroUuid) :
    ∃ r, create_chat_response env st metaUserId chatId content tempId = .ok r ∧
      r.response.id = zeroUuid ∧
      r.response.references = [] ∧
      r.response.input = content ∧
      r.db = st ∧
      get_rating r.db metaUserId chatId zeroUuid = .error .notFound ∧
      (∀ limit offset b,
        zeroUuid ∉ (get_responses_by_chat_id r.db chatId limit offset b).map
          (fun x => x.id)) := by
  have hrt : get_rating st metaUserId chatId zeroUuid = .error .notFound := by
    unfold get_rating
    rw [hval]
    have hnone : get_response_by_id st zeroUuid = none := by
      unfold get_response_by_id
      rw [List.find?_eq_none]
      intro x hx
      simp [hfresh x hx]
    rw [hnone]
  have hmem : ∀ limit offset b,
      zeroUuid ∉ (get_responses_by_chat_id st chatId limit offset b).map
        (fun x => x.id) := by
    intro limit offset b hin
    rw [List.mem_map] at hin
    obtain ⟨x, hx, hxid⟩ := hin
    exact hfresh x (mem_get_responses st chatId limit offset b x hx) hxid
  rcases hshort with hlang | ⟨hlang, henabled, hrel⟩
  · refine ⟨_, unsupported_language_eq env st metaUserId chatId
      content tempId hval hrate hlang, rfl, rfl, rfl, rfl, hrt, hmem⟩
  · refine ⟨_, guardrail_rejection_eq env st metaUserId chatId
      content tempId hval hrate hlang henabled hrel, rfl, rfl, rfl, rfl, hrt, hmem⟩

/-- C1: for every create-response turn whose detected source language is
outside {en, de, fr}, the handler returns a terminal (non-error)
ChatResponse whose output is the fixed unsupported-language message, with
no Response or Reference row inserted (the store is unchanged) and no
call to the knowledge-graph QA engine (the effect trace is empty). -/
theorem c1_unsupported_language_short_circuit (env : Env) (st : DbState)
    (metaUserId chatId content tempId : String)
    (hval : validate_chat_existence_access st chatId metaUserId = none)
    (hrate : env.rate_limit_ok = true)
    (hlang : ¬ ((env.translate_to_en content).source_lang = "en" ∨
                (env.translate_to_en content).source_lang = "de" ∨
                (env.translate_to_en content).source_lang = "fr")) :
    create_chat_response env st metaUserId chatId content tempId =
      .ok { response := { id := zeroUuid, createdAt := env.now, input := content,
                          output := unsupportedLanguageMessage, references := [] },
            db := st, trace := Trace.empty } :=
  unsupported_language_eq env st metaUserId chatId content tempId hval hrate hlang

/-- C2: for every create-response turn in which guardrail evaluation is
enabled and the guardrail classifies the (working-language) query as not
relevant, the handler returns a terminal ChatResponse whose output is the
guardrail's message verbatim, with no Response or Reference row persisted
(the store is unchanged) and no QA-engine call (the effect trace is
empty). -/
theorem c2_guardrail_rejection_short_circuit (env : Env) (st : DbState)
    (metaUserId chatId content tempId : String)
    (hval : validate_chat_existence_access st chatId metaUserId = none)
    (hrate : env.rate_limit_ok = true)
    (hlang : (env.translate_to_en content).source_lang = "en" ∨
             (env.translate_to_en content).source_lang = "de" ∨
             (env.translate_to_en content).source_lang = "fr")
    (henabled : env.guardrail_enabled = true)
    (hrel : (env.guardrails
        (working_query (env.translate_to_en content) content)).relevant = false) :
    create_chat_response env st metaUserId chatId content tempId =
      .ok { response := { id := zeroUuid, createdAt := env.now, input := content,
                          output := (env.guardrails
                            (working_query (env.translate_to_en content) content)).message,
                          references := [] },
            db := st, trace := Trace.empty } :=
  guardrail_rejection_eq env st metaUserId chatId content tempId hval hrate hlang
    henabled hrel

theorem enum_refRow_idx (rid : String) (refs : List Reference) :
    (refs.enum.map (refRowOf rid)).map (fun row => row.idx) =
      List.range refs.length := by
  rw [List.map_map]
  show refs.enum.map Prod.fst = List.range refs.length
  rw [List.enum_eq_enumFrom, List.enumFrom_map_fst, List.range_eq_range']

theorem enum_refRow_ids (rid : String) (refs : List Reference) :
    (refs.enum.map (refRowOf rid)).map (fun row => row.reference_id) =
      refs.map (fun ref => ref.id) := by
  rw [List.map_map]
  show refs.enum.map ((fun ref => ref.id) ∘ Prod.snd) = refs.map (fun ref => ref.id)
  rw [← List.map_map, List.enum_eq_enumFrom, List.enumFrom_map_snd]

/-- C4: for every turn that reaches persistence, exactly one Response row
is appended (with the composed input, prepared query, final output, raw
payload, and a null rating), and then one Reference row per composed
reference is appended in list order, each with `idx` equal to its
zero-based position in the composer's output list and pointing at the new
Response row — no gaps, no reordering, for any references list length. -/
theorem c4_persistence_row_then_ordered_references (env : Env) (st : DbState)
    (metaUserId chatId content tempId payload : String) (scores : RagasScores)
    (hval : validate_chat_existence_access st chatId metaUserId = none)
    (hrate : env.rate_limit_ok = true)
    (hlang : (env.translate_to_en content).source_lang = "en" ∨
             (env.translate_to_en content).source_lang = "de" ∨
             (env.translate_to_en content).source_lang = "fr")
    (hguard : env.guardrail_enabled = false ∨
              (env.guardrails
                (working_query (env.translate_to_en content) content)).relevant = true)
    (hkg : env.kg_response
        (env.request_prepare (working_query (env.translate_to_en content) content))
        (conversation_history_of st chatId env.max_conversation_turns) = some payload)
    (hragas : env.ragas content
        (final_output env (env.response_prepare content payload tempId)
          (env.translate_to_en content).source_lang) = some scores) :
    ∃ r, create_chat_response env st metaUserId chatId content tempId = .ok r ∧
      r.response.references = (env.response_prepare content payload tempId).references ∧
      r.db.responses = st.responses ++
        [expectedRow env st chatId content tempId
          (env.request_prepare (working_query (env.translate_to_en content) content))
          (env.translate_to_en content).source_lang payload] ∧
      r.response.id = (expectedRow env st chatId content tempId
          (env.request_prepare (working_query (env.translate_to_en content) content))
          (env.translate_to_en content).source_lang payload).id ∧
      r.db.refRows = st.refRows ++
        r.response.references.enum.map (refRowOf r.response.id) ∧
      (r.db.refRows.drop st.refRows.length).map (fun row => row.idx) =
        List.range r.response.references.length ∧
      (r.db.refRows.drop st.refRows.length).map (fun row => row.reference_id) =
        r.response.references.map (fun ref => ref.id) := by
  rw [create_qa_dispatch env st metaUserId chatId content tempId hval hrate hlang hguard,
      qa_path_eq env st chatId content tempId _ _ payload scores hkg hragas]
  refine ⟨_, rfl, rfl, ?_, rfl, rfl, ?_, ?_⟩
  · simp [expectedResult, expectedRow]
  · simp only [expectedResult, expectedRow]
    rw [List.drop_left' (by rfl)]
    exact enum_refRow_idx _ _
  · simp only [expectedResult, expectedRow]
    rw [List.drop_left' (by rfl)]
    exact enum_refRow_ids _ _

/-- C5: for every turn that reaches the QA call, the handler sends exactly
one QA request whose conversation history is built from the (at most)
`max_conversation_turns` most recent prior responses of the chat taken in
chronological order — each contributing a user entry (its query) directly
followed by an assistant entry (its output) — so the history is the
flattening of a chronological suffix of the chat's responses and has
length `2 * min max_conversation_turns (number of prior responses)`. -/
theorem c5_conversation_history_shape (env : Env) (st : DbState)
    (metaUserId chatId content tempId payload : String) (scores : RagasScores)
    (hval : validate_chat_existence_access st chatId metaUserId = none)
    (hrate : env.rate_limit_ok = true)
    (hlang : (env.translate_to_en content).source_lang = "en" ∨
             (env.translate_to_en content).source_lang = "de" ∨
             (env.translate_to_en content).source_lang = "fr")
    (hguard : env.guardrail_enabled = false ∨
              (env.guardrails
                (working_query (env.translate_to_en content) content)).relevant = true)
    (hkg : env.kg_response
        (env.request_prepare (working_query (env.translate_to_en content) content))
        (conversation_history_of st chatId env.max_conversation_turns) = some payload)
    (hragas : env.ragas content
        (final_output env (env.response_prepare content payload tempId)
          (env.translate_to_en content).source_lang) = some scores) :
    ∃ r, create_chat_response env st metaUserId chatId content tempId = .ok r ∧
      r.trace.qa_calls =
        [(env.request_prepare (working_query (env.translate_to_en content) content),
          conversation_history_of st chatId env.max_conversation_turns)] ∧
      conversation_history_of st chatId env.max_conversation_turns =
        ((st.responses.filter (fun x => x.chat_id = chatId)).drop
            ((st.responses.filter (fun x => x.chat_id = chatId)).length -
              env.max_conversation_turns)).flatMap
          (fun x => [{ role := "user", content := x.query },
                     { role := "assistant", content := x.output }]) ∧
      (conversation_history_of st chatId env.max_conversation_turns).length =
        2 * min env.max_conversation_turns
          (st.responses.filter (fun x => x.chat_id = chatId)).length := by
  rw [create_qa_dispatch env st metaUserId chatId content tempId hval hrate hlang hguard,
      qa_path_eq env st chatId content tempId _ _ payload scores hkg hragas]
  exact ⟨_, rfl, rfl, conversation_history_eq_drop st chatId env.max_conversation_turns,
    conversation_history_length st chatId env.max_conversation_turns⟩

/-- C6: for every turn that reaches composition, back-translation is
performed if and only if the detected source language differs from the
working language "en", and the back-translation and citation-reformatting
passes change only the output text: the returned references (identifiers,
types, order) and the input field are exactly those of the composer's
output. -/
theorem c6_back_translation_only_touches_output (env : Env) (st : DbState)
    (metaUserId chatId content tempId payload : String) (scores : RagasScores)
    (hval : validate_chat_existence_access st chatId metaUserId = none)
    (hrate : env.rate_limit_ok = true)
    (hlang : (env.translate_to_en content).source_lang = "en" ∨
             (env.translate_to_en content).source_lang = "de" ∨
             (env.translate_to_en content).source_lang = "fr")
    (hguard : env.guardrail_enabled = false ∨
              (env.guardrails
                (working_query (env.translate_to_en content) content)).relevant = true)
    (hkg : env.kg_response
        (env.request_prepare (working_query (env.translate_to_en content) content))
        (conversation_history_of st chatId env.max_conversation_turns) = some payload)
    (hragas : env.ragas content
        (final_output env (env.response_prepare content payload tempId)
          (env.translate_to_en content).source_lang) = some scores) :
    ∃ r, create_chat_response env st metaUserId chatId content tempId = .ok r ∧
      r.response.references = (env.response_prepare content payload tempId).references ∧
      r.response.input = (env.response_prepare content payload tempId).input ∧
      r.response.output = final_output env (env.response_prepare content payload tempId)
        (env.translate_to_en content).source_lang ∧
      r.trace.translate_back_calls =
        (if (env.translate_to_en content).source_lang = "en" then []
         else [((env.response_prepare content payload tempId).output,
                (env.translate_to_en content).source_lang)]) := by
  rw [create_qa_dispatch env st metaUserId chatId content tempId hval hrate hlang hguard,
      qa_path_eq env st chatId content tempId _ _ payload scores hkg hragas]
  exact ⟨_, rfl, rfl, rfl, rfl, rfl⟩

/-- C8: for every successfully scored turn, the faithfulness,
answer-relevance and context-precision gauges are set to the computed
scores unconditionally (similarity only when present), and a structured
low-quality log record carrying the question, the answer and both scores
is emitted if and only if faithfulness < 0.8 or answer-relevance < 0.8. -/
theorem c8_scoring_gauges_and_low_quality_log (env : Env) (st : DbState)
    (metaUserId chatId content tempId payload : String) (scores : RagasScores)
    (hval : validate_chat_existence_access st chatId metaUserId = none)
    (hrate : env.rate_limit_ok = true)
    (hlang : (env.translate_to_en content).source_lang = "en" ∨
             (env.translate_to_en content).source_lang = "de" ∨
             (env.translate_to_en content).source_lang = "fr")
    (hguard : env.guardrail_enabled = false ∨
              (env.guardrails
                (working_query (env.translate_to_en content) content)).relevant = true)
    (hkg : env.kg_response
        (env.request_prepare (working_query (env.translate_to_en content) content))
        (conversation_history_of st chatId env.max_conversation_turns) = some payload)
    (hragas : env.ragas content
        (final_output env (env.response_prepare content payload tempId)
          (env.translate_to_en content).source_lang) = some scores) :
    ∃ r, create_chat_response env st metaUserId chatId content tempId = .ok r ∧
      r.trace.gauges = { faithfulness := some scores.faithfulness,
                         answer_relevance := some scores.answer_relevance,
                         context_precision := some scores.context_precision,
                         similarity := scores.similarity } ∧
      r.trace.low_quality_logs =
        (if scores.faithfulness < FAITHFULNESS_THRESHOLD ∨
            scores.answer_relevance < RELEVANCE_THRESHOLD then
          [{ question := content, answer := r.response.output,
             faithfulness := scores.faithfulness,
             answer_relevance := scores.answer_relevance }]
        else []) ∧
      (r.trace.low_quality_logs ≠ [] ↔
        (scores.faithfulness < FAITHFULNESS_THRESHOLD ∨
         scores.answer_relevance < RELEVANCE_THRESHOLD)) := by
  rw [create_qa_dispatch env st metaUserId chatId content tempId hval hrate hlang hguard,
      qa_path_eq env st chatId content tempId _ _ payload scores hkg hragas]
  refine ⟨_, rfl, rfl, rfl, ?_⟩
  by_cases h : scores.faithfulness < FAITHFULNESS_THRESHOLD ∨
      scores.answer_relevance < RELEVANCE_THRESHOLD
  · simp [expectedResult, h]
  · simp [expectedResult, h]


theorem respContent_update (rid : String) (v : Option Int) (r : DbResponse) :
    respContent (if r.id = rid then { r with rating := v } else r) =
      respContent r := by
  by_cases h : r.id = rid <;> simp [h, respContent]

theorem map_respContent_update (l : List DbResponse) (rid : String)
    (v : Option Int) :
    (set_rating_rows l rid v).map respContent = l.map respContent := by
  unfold set_rating_rows
  rw [List.map_map]
  have h : respContent ∘ (fun r => if r.id = rid then { r with rating := v } else r)
      = respContent := funext (fun r => respContent_update rid v r)
  rw [h]

theorem find?_set_rating_rows (l : List DbResponse) (rid : String)
    (v : Option Int) (row : DbResponse)
    (h : l.find? (fun r => r.id = rid) = some row) :
    (set_rating_rows l rid v).find? (fun r => r.id = rid) =
      some { row with rating := v } := by
  unfold set_rating_rows
  induction l with
  | nil => simp at h
  | cons x xs ih =>
    by_cases hx : x.id = rid
    · rw [List.find?_cons_of_pos _ (by simp [hx])] at h
      injection h with h
      subst h
      simp only [List.map_cons, if_pos hx]
      rw [List.find?_cons_of_pos _ (by simp [hx])]
    · rw [List.find?_cons_of_neg _ (by simp [hx])] at h
      simp only [List.map_cons, if_neg hx]
      rw [List.find?_cons_of_neg _ (by simp [hx])]
      exact ih h

theorem validate_only_reads_chats (st st' : DbState) (chatId metaUserId : String)
    (h : st'.chats = st.chats) :
    validate_chat_existence_access st' chatId metaUserId =
      validate_chat_existence_access st chatId metaUserId := by
  unfold validate_chat_existence_access
  rw [h]

/-- C7: for a chat the caller owns and an existing response, setting a
rating with `create_rating v` makes `get_rating` return v, then clearing
it with `delete_rating` makes `get_rating` return a null rating, and both
operations change no chat row, no reference row, and no response field
other than the rating. -/
theorem c7_rating_set_get_clear_get (st : DbState)
    (metaUserId chatId responseId : String) (v : Int) (row : DbResponse)
    (hval : validate_chat_existence_access st chatId metaUserId = none)
    (hfind : st.responses.find? (fun r => r.id = responseId) = some row) :
    ∃ st1 st2,
      create_rating st metaUserId chatId responseId v =
        .ok ({ rating := some v }, st1) ∧
      get_rating st1 metaUserId chatId responseId = .ok { rating := some v } ∧
      delete_rating st1 metaUserId chatId responseId = .ok st2 ∧
      get_rating st2 metaUserId chatId responseId = .ok { rating := none } ∧
      st1.responses.map respContent = st.responses.map respContent ∧
      st2.responses.map respContent = st.responses.map respContent ∧
      st1.chats = st.chats ∧ st2.chats = st.chats ∧
      st1.refRows = st.refRows ∧ st2.refRows = st.refRows := by
  have hupd1 : update_response_rating st responseId (some v) =
      some ({ st with responses := set_rating_rows st.responses responseId (some v) },
        { row with rating := some v }) := by
    unfold update_response_rating
    rw [hfind]
  set st1 : DbState :=
    { st with responses := set_rating_rows st.responses responseId (some v) } with hst1
  have hval1 : validate_chat_existence_access st1 chatId metaUserId = none := by
    rw [validate_only_reads_chats st st1 chatId metaUserId rfl]
    exact hval
  have hfind1 : st1.responses.find? (fun r => r.id = responseId) =
      some { row with rating := some v } :=
    find?_set_rating_rows st.responses responseId (some v) row hfind
  have hupd2 : update_response_rating st1 responseId none =
      some ({ st1 with responses := set_rating_rows st1.responses responseId none },
        { row with rating := none }) := by
    unfold update_response_rating
    rw [hfind1]
  set st2 : DbState :=
    { st1 with responses := set_rating_rows st1.responses responseId none } with hst2
  have hval2 : validate_chat_existence_access st2 chatId metaUserId = none := by
    rw [validate_only_reads_chats st st2 chatId metaUserId rfl]
    exact hval
  have hfind2 : st2.responses.find? (fun r => r.id = responseId) =
      some { row with rating := none } :=
    find?_set_rating_rows st1.responses responseId none
      { row with rating := some v } hfind1
  refine ⟨st1, st2, ?_, ?_, ?_, ?_, ?_, ?_, rfl, rfl, rfl, rfl⟩
  · unfold create_rating
    rw [hval, hupd1]
  · unfold get_rating get_response_by_id
    rw [hval1, hfind1]
  · unfold delete_rating
    rw [hval1, hupd2]
  · unfold get_rating get_response_by_id
    rw [hval2, hfind2]
  · exact map_respContent_update st.responses responseId (some v)
  · rw [hst2]
    show (set_rating_rows st1.responses responseId none).map respContent =
      st.responses.map respContent
    rw [map_respContent_update st1.responses responseId none]
    exact map_respContent_update st.responses responseId (some v)

/-- C9: the rating endpoints validate only that the path chat exists and
is owned by the caller; the response is then looked up by its id alone,
so a caller who owns any chat can read, set, overwrite and clear the
rating of any existing response — including a response of a different
chat, even one owned by another user — with no AccessDenied or NotFound
failure. -/
theorem c9_rating_ops_ignore_response_chat (st : DbState)
    (metaUserId chatId : String) (row : DbResponse) (v : Int)
    (hval : validate_chat_existence_access st chatId metaUserId = none)
    (hfind : st.responses.find? (fun r => r.id = row.id) = some row)
    (hcross : row.chat_id ≠ chatId) :
    get_rating st metaUserId chatId row.id = .ok { rating := row.rating } ∧
    (∃ st1, create_rating st metaUserId chatId row.id v =
      .ok ({ rating := some v }, st1)) ∧
    (∃ st1, update_rating st metaUserId chatId row.id v =
      .ok ({ rating := some v }, st1)) ∧
    (∃ st1, delete_rating st metaUserId chatId row.id = .ok st1) := by
  have hne := hcross
  have hupdv : update_response_rating st row.id (some v) =
      some ({ st with responses := set_rating_rows st.responses row.id (some v) },
        { row with rating := some v }) := by
    unfold update_response_rating
    rw [hfind]
  have hupdn : update_response_rating st row.id none =
      some ({ st with responses := set_rating_rows st.responses row.id none },
        { row with rating := none }) := by
    unfold update_response_rating
    rw [hfind]
  refine ⟨?_,
    ⟨{ st with responses := set_rating_rows st.responses row.id (some v) }, ?_⟩,
    ⟨{ st with responses := set_rating_rows st.responses row.id (some v) }, ?_⟩,
    ⟨{ st with responses := set_rating_rows st.responses row.id none }, ?_⟩⟩
  · unfold get_rating get_response_by_id
    rw [hval, hfind]
  · unfold create_rating
    rw [hval, hupdv]
  · unfold update_rating
    rw [hval, hupdv]
  · unfold delete_rating
    rw [hval, hupdn]

/-- A fixed RAGAS outcome with passing scores. -/
def scoresA : RagasScores :=
  { faithfulness := 0.9, answer_relevance := 0.9, context_precision := 0.7,
    similarity := none }

/-- A fixed RAGAS outcome with a low faithfulness score. -/
def scoresLow : RagasScores :=
  { faithfulness := 0.5, answer_relevance := 0.9, context_precision := 0.7,
    similarity := some 0.6 }

/-- A concrete environment: Spanish and German test phrases, guardrail
disabled, a constant knowledge-graph payload and composer, passing
scores. -/
def envA : Env :=
  { translate_to_en := fun s =>
      if s = "hola" then { source_lang := "es", translated_text := "hello" }
      else if s = "hallo" then { source_lang := "de", translated_text := "hello" }
      else { source_lang := "en", translated_text := s },
    translate_back := fun s lang => some ("[" ++ lang ++ "] " ++ s),
    guardrail_enabled := false,
    guardrails := fun q =>
      if q = "offtopic" then
        { relevant := false, message := "Please ask about products." }
      else { relevant := true, message := "" },
    request_prepare := fun q => "prep: " ++ q,
    kg_response := fun _ _ => some "payload0",
    response_prepare := fun input payload rid =>
      { id := rid, createdAt := 0, input := input,
        output := "answer from " ++ payload,
        references := [{ id := "r1", type := "doc" }, { id := "r2", type := "web" }] },
    format_references := fun s => s ++ " [refs]",
    ragas := fun _ _ => some scoresA,
    max_conversation_turns := 5,
    rate_limit_ok := true,
    now := 7 }

/-- `envA` with guardrail evaluation enabled. -/
def envB : Env := { envA with guardrail_enabled := true }

/-- `envA` with low RAGAS scores. -/
def envLow : Env := { envA with ragas := fun _ _ => some scoresLow }

/-- `envA` whose RAGAS evaluation raises (returns no scores). -/
def envScoringFail : Env := { envA with ragas := fun _ _ => none }

/-- A chat owned by user-1. -/
def chatA : DbChat := { id := "chat-1", meta_user_id := "user-1" }

/-- A chat owned by user-2. -/
def chatB : DbChat := { id := "chat-2", meta_user_id := "user-2" }

/-- A prior response of user-1's chat. -/
def respA1 : DbResponse :=
  { id := "resp-1", chat_id := "chat-1", user_input := "hi",
    query := "prep: hi", output := "earlier answer",
    original_response := "payload-old", rating := none, createdAt := 0 }

/-- A response of user-2's chat. -/
def respB1 : DbResponse :=
  { id := "resp-9", chat_id := "chat-2", user_input := "other",
    query := "prep: other", output := "other answer",
    original_response := "payload-other", rating := some 1, createdAt := 0 }

/-- A store with both chats and only user-2's response. -/
def stA : DbState := { chats := [chatA, chatB], responses := [respB1], refRows := [] }

/-- A store with both chats and a response in each. -/
def stB : DbState :=
  { chats := [chatA, chatB], responses := [respA1, respB1], refRows := [] }

/-- C3: the claim says a failure inside scoring is caught and logged and
never causes the turn to fail; the code has no exception handling around
`evaluate_with_ragas` (which is not even defined or imported in api.py),
so a scoring failure aborts an otherwise fully successful turn — after
the Response and its References were already persisted — with an error
instead of the composed ChatResponse. -/
theorem c3_scoring_failure_aborts_turn :
    create_chat_response envScoringFail stB "user-1" "chat-1" "What is X?" "tmp-1" =
      .error .scoringFailure := by
  rfl

theorem c1_witness :
    create_chat_response envA stA "user-1" "chat-1" "hola" "tmp-1" =
      .ok { response := { id := zeroUuid, createdAt := envA.now, input := "hola",
                          output := unsupportedLanguageMessage, references := [] },
            db := stA, trace := Trace.empty } :=
  c1_unsupported_language_short_circuit envA stA "user-1" "chat-1" "hola" "tmp-1"
    (by decide) rfl (by decide)

theorem c2_witness :
    create_chat_response envB stA "user-1" "chat-1" "offtopic" "tmp-1" =
      .ok { response := { id := zeroUuid, createdAt := envB.now, input := "offtopic",
                          output := (envB.guardrails
                            (working_query (envB.translate_to_en "offtopic") "offtopic")).message,
                          references := [] },
            db := stA, trace := Trace.empty } :=
  c2_guardrail_rejection_short_circuit envB stA "user-1" "chat-1" "offtopic" "tmp-1"
    (by decide) rfl (by decide) rfl (by decide)

theorem c4_witness :
    ∃ r, create_chat_response envA stB "user-1" "chat-1" "What is X?" "tmp-1" = .ok r ∧
      r.response.references = (envA.response_prepare "What is X?" "payload0" "tmp-1").references ∧
      r.db.responses = stB.responses ++
        [expectedRow envA stB "chat-1" "What is X?" "tmp-1"
          (envA.request_prepare (working_query (envA.translate_to_en "What is X?") "What is X?"))
          (envA.translate_to_en "What is X?").source_lang "payload0"] ∧
      r.response.id = (expectedRow envA stB "chat-1" "What is X?" "tmp-1"
          (envA.request_prepare (working_query (envA.translate_to_en "What is X?") "What is X?"))
          (envA.translate_to_en "What is X?").source_lang "payload0").id ∧
      r.db.refRows = stB.refRows ++
        r.response.references.enum.map (refRowOf r.response.id) ∧
      (r.db.refRows.drop stB.refRows.length).map (fun row => row.idx) =
        List.range r.response.references.length ∧
      (r.db.refRows.drop stB.refRows.length).map (fun row => row.reference_id) =
        r.response.references.map (fun ref => ref.id) :=
  c4_persistence_row_then_ordered_references envA stB "user-1" "chat-1" "What is X?"
    "tmp-1" "payload0" scoresA (by decide) rfl (by decide) (Or.inl rfl) rfl rfl

theorem c5_witness :
    ∃ r, create_chat_response envA stB "user-1" "chat-1" "What is X?" "tmp-1" = .ok r ∧
      r.trace.qa_calls =
        [(envA.request_prepare (working_query (envA.translate_to_en "What is X?") "What is X?"),
          conversation_history_of stB "chat-1" envA.max_conversation_turns)] ∧
      conversation_history_of stB "chat-1" envA.max_conversation_turns =
        ((stB.responses.filter (fun x => x.chat_id = "chat-1")).drop
            ((stB.responses.filter (fun x => x.chat_id = "chat-1")).length -
              envA.max_conversation_turns)).flatMap
          (fun x => [{ role := "user", content := x.query },
                     { role := "assistant", content := x.output }]) ∧
      (conversation_history_of stB "chat-1" envA.max_conversation_turns).length =
        2 * min envA.max_conversation_turns
          (stB.responses.filter (fun x => x.chat_id = "chat-1")).length :=
  c5_conversation_history_shape envA stB "user-1" "chat-1" "What is X?" "tmp-1"
    "payload0" scoresA (by decide) rfl (by decide) (Or.inl rfl) rfl rfl

theorem c6_witness :
    ∃ r, create_chat_response envA stB "user-1" "chat-1" "hallo" "tmp-1" = .ok r ∧
      r.response.references = (envA.response_prepare "hallo" "payload0" "tmp-1").references ∧
      r.response.input = (envA.response_prepare "hallo" "payload0" "tmp-1").input ∧
      r.response.output = final_output envA (envA.response_prepare "hallo" "payload0" "tmp-1")
        (envA.translate_to_en "hallo").source_lang ∧
      r.trace.translate_back_calls =
        (if (envA.translate_to_en "hallo").source_lang = "en" then []
         else [((envA.response_prepare "hallo" "payload0" "tmp-1").output,
                (envA.translate_to_en "hallo").source_lang)]) :=
  c6_back_translation_only_touches_output envA stB "user-1" "chat-1" "hallo" "tmp-1"
    "payload0" scoresA (by decide) rfl (by decide) (Or.inl rfl) rfl rfl

theorem c7_witness :
    ∃ st1 st2,
      create_rating stB "user-1" "chat-1" "resp-1" 4 =
        .ok ({ rating := some 4 }, st1) ∧
      get_rating st1 "user-1" "chat-1" "resp-1" = .ok { rating := some 4 } ∧
      delete_rating st1 "user-1" "chat-1" "resp-1" = .ok st2 ∧
      get_rating st2 "user-1" "chat-1" "resp-1" = .ok { rating := none } ∧
      st1.responses.map respContent = stB.responses.map respContent ∧
      st2.responses.map respContent = stB.responses.map respContent ∧
      st1.chats = stB.chats ∧ st2.chats = stB.chats ∧
      st1.refRows = stB.refRows ∧ st2.refRows = stB.refRows :=
  c7_rating_set_get_clear_get stB "user-1" "chat-1" "resp-1" 4 respA1
    (by decide) (by decide)

theorem c8_witness :
    ∃ r, create_chat_response envLow stB "user-1" "chat-1" "What is X?" "tmp-1" = .ok r ∧
      r.trace.gauges = { faithfulness := some scoresLow.faithfulness,
                         answer_relevance := some scoresLow.answer_relevance,
                         context_precision := some scoresLow.context_precision,
                         similarity := scoresLow.similarity } ∧
      r.trace.low_quality_logs =
        (if scoresLow.faithfulness < FAITHFULNESS_THRESHOLD ∨
            scoresLow.answer_relevance < RELEVANCE_THRESHOLD then
          [{ question := "What is X?", answer := r.response.output,
             faithfulness := scoresLow.faithfulness,
             answer_relevance := scoresLow.answer_relevance }]
        else []) ∧
      (r.trace.low_quality_logs ≠ [] ↔
        (scoresLow.faithfulness < FAITHFULNESS_THRESHOLD ∨
         scoresLow.answer_relevance < RELEVANCE_THRESHOLD)) :=
  c8_scoring_gauges_and_low_quality_log envLow stB "user-1" "chat-1" "What is X?"
    "tmp-1" "payload0" scoresLow (by decide) rfl (by decide) (Or.inl rfl) rfl rfl

theorem c9_witness :
    get_rating stA "user-1" "chat-1" respB1.id = .ok { rating := respB1.rating } ∧
    (∃ st1, create_rating stA "user-1" "chat-1" respB1.id 2 =
      .ok ({ rating := some 2 }, st1)) ∧
    (∃ st1, update_rating stA "user-1" "chat-1" respB1.id 2 =
      .ok ({ rating := some 2 }, st1)) ∧
    (∃ st1, delete_rating stA "user-1" "chat-1" respB1.id = .ok st1) :=
  c9_rating_ops_ignore_response_chat stA "user-1" "chat-1" respB1 2
    (by decide) (by decide) (by decide)

theorem c10_witness :
    ∃ r, create_chat_response envB stA "user-1" "chat-1" "offtopic" "tmp-1" = .ok r ∧
      r.response.id = zeroUuid ∧
      r.response.references = [] ∧
      r.response.input = "offtopic" ∧
      r.db = stA ∧
      get_rating r.db "user-1" "chat-1" zeroUuid = .error .notFound ∧
      (∀ limit offset b,
        zeroUuid ∉ (get_responses_by_chat_id r.db "chat-1" limit offset b).map
          (fun x => x.id)) :=
  c10_sentinel_short_circuit_not_observable envB stA "user-1" "chat-1" "offtopic"
    "tmp-1" (by decide) rfl
    (Or.inr ⟨by decide, rfl, by decide⟩) (by decide)
